import Mathlib

/-!
Verification of the token-bucket rate-limiting core of the golang-api-gateway
repository, shallowly embedded in Lean 4.

Modelling conventions:
* The in-process bucket (ratelimit/token_bucket.go) keeps wall-clock instants
  in whole milliseconds (`Nat`); Go computes `int(elapsed.Seconds())`, which
  for the non-negative monotonic durations used here equals the millisecond
  count divided by 1000 with truncation.
* Token counts are `Int`, so the lower bound of the balance invariant is a
  real statement rather than an artefact of `Nat`.
* The distributed limiter (ratelimit/redis_limiter.go) timestamps state with
  `time.Now().Unix()` seconds; the Lua script works on those integers, so the
  embedding uses `Int` seconds there.
* The Redis store is a partial map `String -> Option RedisBucketData`; the
  SET/GET/DEL calls of the script become reads and updates of that map.
-/

/-- State of one in-process token bucket (struct `TokenBucket`,
ratelimit/token_bucket.go).  The mutex, ticker and stop channel carry no
algorithmic state and are not modelled; every operation below is the body of
one mutex-guarded critical section. -/
structure TokenBucket where
  capacity : Int
  tokens : Int
  refillRate : Int
  lastRefill : Nat
deriving Repr, DecidableEq

/-- `NewTokenBucket`: a fresh bucket starts with a full balance and
`lastRefill = now`. -/
def NewTokenBucket (capacity refillRate : Int) (now : Nat) : TokenBucket :=
  { capacity := capacity
    tokens := capacity
    refillRate := refillRate
    lastRefill := now }

/-- `tokensToAdd := int(elapsed.Seconds()) * tb.refillRate`: the elapsed
duration is truncated to whole seconds first and then multiplied by the
rate. -/
def tokensToAdd (tb : TokenBucket) (now : Nat) : Int :=
  (((now - tb.lastRefill) / 1000 : Nat) : Int) * tb.refillRate

/-- Body of `refill` (and of the identical inlined refill blocks in
`TryConsume` and `GetTokens`): add `tokensToAdd`, clamp at capacity, and
advance `lastRefill` only when something was added. -/
def refill (tb : TokenBucket) (now : Nat) : TokenBucket :=
  let add := tokensToAdd tb now
  if add > 0 then
    let t := tb.tokens + add
    { tb with tokens := if t > tb.capacity then tb.capacity else t
              lastRefill := now }
  else tb

/-- `TryConsume`: refill in place, then subtract `n` tokens when the
refilled balance covers them. -/
def TryConsume (tb : TokenBucket) (n : Int) (now : Nat) : Bool × TokenBucket :=
  let tb1 := refill tb now
  if tb1.tokens ≥ n then
    (true, { tb1 with tokens := tb1.tokens - n })
  else
    (false, tb1)

/-- `GetTokens`: refill in place and report the balance. -/
def GetTokens (tb : TokenBucket) (now : Nat) : Int × TokenBucket :=
  let tb1 := refill tb now
  (tb1.tokens, tb1)

/-- The bucket balance invariant `0 ≤ tokens ≤ capacity`. -/
def BucketInv (tb : TokenBucket) : Prop :=
  0 ≤ tb.tokens ∧ tb.tokens ≤ tb.capacity

instance (tb : TokenBucket) : Decidable (BucketInv tb) := by
  unfold BucketInv; infer_instance

/-- Bucket state stored in Redis (struct `RedisBucketData` /
the Lua-side table `bucket`), timestamped in Unix seconds. -/
structure RedisBucketData where
  tokens : Int
  lastRefill : Int
deriving Repr, DecidableEq

/-- The Lua script evaluated by `RedisRateLimiter.Allow`, restricted to the
fields the Go caller actually consumes reliably (the allow flag and the new
balance).  A missing key is initialised at full capacity; note that, unlike
the in-process bucket, the script writes `last_refill = now` on every call. -/
def allowScript (data : Option RedisBucketData) (capacity refillRate n now : Int) :
    Bool × RedisBucketData :=
  let bucket := match data with
    | some b => b
    | none => { tokens := capacity, lastRefill := now }
  let elapsed := now - bucket.lastRefill
  let add := elapsed * refillRate
  let t0 := bucket.tokens + add
  let t1 := if t0 > capacity then capacity else t0
  if t1 ≥ n then
    (true, { tokens := t1 - n, lastRefill := now })
  else
    (false, { tokens := t1, lastRefill := now })

/-- `RedisRateLimiter.Allow` as a transformer of the per-key store: run the
script on the value at `key` and write the updated bucket back. -/
def RedisAllow (store : String → Option RedisBucketData)
    (capacity refillRate n now : Int) (key : String) :
    Bool × (String → Option RedisBucketData) :=
  let r := allowScript (store key) capacity refillRate n now
  (r.1, fun k => if k = key then some r.2 else store k)

/-- `RedisRateLimiter.GetStatus`: a missing key reports a full bucket;
an existing one is projected through the same elapsed-time refill
arithmetic without being written back. -/
def RedisGetStatus (store : String → Option RedisBucketData)
    (capacity refillRate : Int) (key : String) (now : Int) : Int × Int × Int :=
  match store key with
  | none => (capacity, capacity, refillRate)
  | some b =>
    let add := (now - b.lastRefill) * refillRate
    let t := b.tokens + add
    (if t > capacity then capacity else t, capacity, refillRate)

/-- `RedisRateLimiter.Reset`: DEL the key. -/
def RedisReset (store : String → Option RedisBucketData) (key : String) :
    String → Option RedisBucketData :=
  fun k => if k = key then none else store k

/-- The empty store: no key has ever recorded traffic. -/
def emptyStore : String → Option RedisBucketData := fun _ => none

/-- Truncation-toward-zero division, the effect of Go's
`time.Duration(x)` conversion applied to the float quotient `a / b`
(exact for the small non-negative quotients arising here); `b` positive. -/
def truncDiv (a b : Int) : Int :=
  if 0 ≤ a then ((a.toNat / b.toNat : Nat) : Int)
  else -(((-a).toNat / b.toNat : Nat) : Int)

/-- Struct `RateLimitResult`: outcome of one evaluation.  `resetTime` and
`retryAfterSec` are Unix seconds. -/
structure RateLimitResult where
  allowed : Bool
  remaining : Int
  resetTime : Int
  retryAfterSec : Int
deriving Repr, DecidableEq

/-- `RateLimiter.CheckRateLimit`: `TryConsume` then `GetTokens` for the
remaining balance, then the reset/retry arithmetic.  Go reads the clock
again for each step; the steps run back to back inside one request, so the
model evaluates them all at the single instant `now`.  `time.Duration` of
the float quotient truncates toward zero, hence `truncDiv`. -/
def CheckRateLimit (tb : TokenBucket) (n : Int) (now : Nat) :
    RateLimitResult × TokenBucket :=
  let r1 := TryConsume tb n now
  let allowed := r1.1
  let r2 := GetTokens r1.2 now
  let remaining := r2.1
  let tb2 := r2.2
  let nowSec : Int := ((now / 1000 : Nat) : Int)
  if allowed then
    let secondsToFull := truncDiv (tb2.capacity - remaining) tb2.refillRate
    ({ allowed := true, remaining := remaining,
       resetTime := nowSec + secondsToFull, retryAfterSec := 0 }, tb2)
  else
    let tokensNeeded := n - remaining
    let retryAfter := truncDiv tokensNeeded tb2.refillRate
    ({ allowed := false, remaining := remaining,
       resetTime := nowSec + retryAfter, retryAfterSec := retryAfter }, tb2)

/-- The structured JSON body written by `writeRateLimitResponse`. -/
structure RateLimitBody where
  error : String
  message : String
  retryAfter : Int
  resetTime : Int
  limit : Int
  remaining : Int
deriving Repr, DecidableEq

/-- Observable outcome of one request through `RateLimitMiddleware.Middleware`:
which rate-limit headers were set, the response status, the denial body if
one was written, and whether the downstream handler ran. -/
structure HttpResponse where
  headerLimit : Option Int
  headerRemaining : Option Int
  headerReset : Option Int
  headerRetryAfter : Option Int
  status : Nat
  body : Option RateLimitBody
  downstreamCalled : Bool
deriving Repr, DecidableEq

/-- `Middleware` response shaping, parameterised by the limiter outcome
(`Except` models the error return of the Redis path; the local path never
errors).  On error: log-and-forward, untouched response.  On a result:
`addRateLimitHeaders` always sets the three X-RateLimit headers and sets
Retry-After only on denial; a denial then short-circuits with 429 and the
structured body, otherwise the downstream handler runs. -/
def Middleware (capacity : Int) (outcome : Except Unit RateLimitResult)
    (downstreamStatus : Nat) : HttpResponse :=
  match outcome with
  | .error _ =>
    { headerLimit := none, headerRemaining := none, headerReset := none
      headerRetryAfter := none, status := downstreamStatus
      body := none, downstreamCalled := true }
  | .ok result =>
    let base : HttpResponse :=
      { headerLimit := some capacity
        headerRemaining := some result.remaining
        headerReset := some result.resetTime
        headerRetryAfter := if result.allowed then none else some result.retryAfterSec
        status := downstreamStatus
        body := none
        downstreamCalled := true }
    if result.allowed then
      base
    else
      { base with
          status := 429
          body := some
            { error := "Rate limit exceeded"
              message := "Too many requests"
              retryAfter := result.retryAfterSec
              resetTime := result.resetTime
              limit := capacity
              remaining := result.remaining }
          downstreamCalled := false }

/-- The accounting flags of `RateLimitMiddlewareConfig` (documented as:
do not count successful / failed requests against the quota). -/
structure MWConfig where
  skipSuccessful : Bool
  skipFailed : Bool
deriving Repr, DecidableEq

/-- `shouldCountRequest`: classify the downstream status code under the
configured skip flags. -/
def shouldCountRequest (cfg : MWConfig) (statusCode : Nat) : Bool :=
  if cfg.skipSuccessful ∧ 200 ≤ statusCode ∧ statusCode < 300 then false
  else if cfg.skipFailed ∧ 400 ≤ statusCode then false
  else true

/-- One full pass of the middleware over a single bucket with the local
limiter: `CheckRateLimit` consumes the token up front, the response is
shaped, and afterwards the Go code evaluates `shouldCountRequest` on the
captured status code but discards the result (`_ =` in the source), so the
bucket state is whatever `CheckRateLimit` left. -/
def MiddlewareLocal (cfg : MWConfig) (tb : TokenBucket) (now : Nat)
    (downstreamStatus : Nat) : HttpResponse × TokenBucket :=
  let r := CheckRateLimit tb 1 now
  let resp := Middleware r.2.capacity (.ok r.1) downstreamStatus
  let _ := shouldCountRequest cfg downstreamStatus
  (resp, r.2)

/-- The request attributes the key-derivation code reads. -/
structure HttpRequest where
  xForwardedFor : String
  xRealIP : String
  remoteAddr : String
  authorization : String
  xAPIKey : String
deriving Repr, DecidableEq

/-- Enum `ClientIdentifier`. -/
inductive ClientIdentifier where
  | byIP
  | byJWTSubject
  | byAPIKey
  | byUserID
deriving Repr, DecidableEq

/-- The parts of `RateLimitMiddlewareConfig` that key derivation reads. -/
structure KeyConfig where
  identifier : ClientIdentifier
  customKeyFunc : Option (HttpRequest → String)

/-- Split a character list at its last colon, returning (before, after). -/
def splitLastColon : List Char → Option (List Char × List Char)
  | [] => none
  | c :: rest =>
    match splitLastColon rest with
    | some (h, p) => some (c :: h, p)
    | none => if c = ':' then some ([], rest) else none

/-- Model of `net.SplitHostPort` restricted to the host component: fails
with no colon; a bracketed host is unwrapped; an unbracketed host containing
a further colon is rejected (too many colons). -/
def splitHostPort (s : String) : Option String :=
  match splitLastColon s.data with
  | none => none
  | some (host, _) =>
    match host with
    | '[' :: hrest =>
      if hrest.getLast? = some ']' then some (String.mk hrest.dropLast) else none
    | _ => if host.contains ':' then none else some (String.mk host)

/-- `getClientIP`: first X-Forwarded-For entry (trimmed) when the header is
present, else X-Real-IP, else the host part of RemoteAddr (or RemoteAddr
itself when it does not parse as host:port). -/
def getClientIP (r : HttpRequest) : String :=
  if r.xForwardedFor ≠ "" then
    ((r.xForwardedFor.splitOn ",").headD "").trim
  else if r.xRealIP ≠ "" then
    r.xRealIP
  else
    match splitHostPort r.remoteAddr with
    | some host => host
    | none => r.remoteAddr

/-- `getJWTSubject`: a bearer credential yields "jwt:" plus the first 20
characters of the token, otherwise fall back to the client IP.  (Go tests
`authHeader != ""` and the Bearer marker; the marker implies non-empty.) -/
def getJWTSubject (r : HttpRequest) : String :=
  if r.authorization.startsWith "Bearer " then
    let token := r.authorization.drop 7
    let token := if token.length > 20 then token.take 20 else token
    "jwt:" ++ token
  else getClientIP r

/-- `getAPIKey`: a presented X-API-Key yields "apikey:" plus the key,
otherwise fall back to the client IP. -/
def getAPIKey (r : HttpRequest) : String :=
  if r.xAPIKey ≠ "" then "apikey:" ++ r.xAPIKey else getClientIP r

/-- `getUserID`: "user:" plus a 20-character truncation of the bearer token,
else of the API key, else fall back to the client IP. -/
def getUserID (r : HttpRequest) : String :=
  if r.authorization.startsWith "Bearer " then
    let token := r.authorization.drop 7
    let token := if token.length > 20 then token.take 20 else token
    "user:" ++ token
  else if r.xAPIKey ≠ "" then
    "user:" ++ (if r.xAPIKey.length > 20 then r.xAPIKey.take 20 else r.xAPIKey)
  else getClientIP r

/-- The identifier-mode switch inside `generateClientKey` (the `default`
arm of the Go switch coincides with the IP arm). -/
def modeKey (cfg : KeyConfig) (r : HttpRequest) : String :=
  match cfg.identifier with
  | .byIP => getClientIP r
  | .byJWTSubject => getJWTSubject r
  | .byAPIKey => getAPIKey r
  | .byUserID => getUserID r

/-- `generateClientKey`: a configured custom key function wins when it
returns non-empty; otherwise the identifier mode selects the key, and an
empty result falls back to the sentinel "unknown:" plus the client IP. -/
def generateClientKey (cfg : KeyConfig) (r : HttpRequest) : String :=
  let fromCustom : Option String :=
    match cfg.customKeyFunc with
    | some f => if f r ≠ "" then some (f r) else none
    | none => none
  match fromCustom with
  | some k => k
  | none =>
    let key := modeKey cfg r
    if key = "" then "unknown:" ++ getClientIP r else key

/-- Request body of the management test endpoint
(`RateLimitTestRequest`, handlers/ratelimit.go). -/
structure RateLimitTestRequest where
  key : String
  count : Int
deriving Repr, DecidableEq

/-- Response body shared by the test and status endpoints
(`RateLimitTestResponse`). -/
structure RateLimitTestResponse where
  allowed : Bool
  remaining : Int
  resetTime : String
  retryAfter : Int
  limit : Int
deriving Repr, DecidableEq

/-- Outcome of a management handler: a JSON payload, or a structured
client error with its HTTP status. -/
inductive HandlerResult where
  | ok (resp : RateLimitTestResponse)
  | clientError (status : Nat) (message : String)
deriving Repr, DecidableEq

/-- `RateLimitHandler.TestRateLimit`, parameterised over whatever limiter
state type `σ` the gateway holds: body decode failure and a missing key
report 400; every other request receives the hard-coded simulated result
(allowed, 99 remaining, limit 100) and the state is never touched. -/
def TestRateLimit (σ : Type) (limiterState : σ)
    (body : Option RateLimitTestRequest) : HandlerResult × σ :=
  match body with
  | none => (.clientError 400 "Invalid request body", limiterState)
  | some req =>
    if req.key = "" then
      (.clientError 400 "Missing key", limiterState)
    else
      (.ok { allowed := true, remaining := 99,
             resetTime := "2025-09-19T16:30:00Z", retryAfter := 0,
             limit := 100 }, limiterState)

/-- `RateLimitHandler.GetClientStatus`: a missing key query parameter
reports 400; otherwise the hard-coded status (95 remaining, limit 100),
independent of the limiter state. -/
def GetClientStatus (σ : Type) (limiterState : σ) (key : String) :
    HandlerResult × σ :=
  if key = "" then
    (.clientError 400 "Missing key", limiterState)
  else
    (.ok { allowed := true, remaining := 95,
           resetTime := "2025-09-19T16:30:00Z", retryAfter := 0,
           limit := 100 }, limiterState)

/-- Run `N` `TryConsume 1` calls back to back at instant `now`, returning
the number of successful calls and the final bucket. -/
def consumeCount (tb : TokenBucket) (N : Nat) (now : Nat) : Nat × TokenBucket :=
  match N with
  | 0 => (0, tb)
  | Nat.succ k =>
    let r := TryConsume tb 1 now
    let rest := consumeCount r.2 k now
    ((if r.1 then 1 else 0) + rest.1, rest.2)

/-- Run `N` distributed `allow(key, 1)` script executions back to back at
instant `now`, returning the number of allowed calls and the final stored
bucket. -/
def allowCount (b : RedisBucketData) (capacity refillRate : Int) (N : Nat)
    (now : Int) : Nat × RedisBucketData :=
  match N with
  | 0 => (0, b)
  | Nat.succ k =>
    let r := allowScript (some b) capacity refillRate 1 now
    let rest := allowCount r.2 capacity refillRate k now
    ((if r.1 then 1 else 0) + rest.1, rest.2)


lemma refill_capacity (tb : TokenBucket) (now : Nat) :
    (refill tb now).capacity = tb.capacity := by
  unfold refill; dsimp only; split <;> rfl

lemma refill_refillRate (tb : TokenBucket) (now : Nat) :
    (refill tb now).refillRate = tb.refillRate := by
  unfold refill; dsimp only; split <;> rfl

lemma refill_inv (tb : TokenBucket) (now : Nat) (h : BucketInv tb) :
    BucketInv (refill tb now) ∧ (refill tb now).tokens ≤ tb.capacity := by
  obtain ⟨h0, h1⟩ := h
  unfold refill BucketInv
  dsimp only
  split
  · dsimp only; constructor
    · constructor <;> [skip; skip] <;> split <;> omega
    · split <;> omega
  · exact ⟨⟨h0, h1⟩, h1⟩

lemma tryConsume_inv (tb : TokenBucket) (n : Int) (now : Nat)
    (h : BucketInv tb) (hn : 0 ≤ n) : BucketInv (TryConsume tb n now).2 := by
  obtain ⟨⟨g0, g1⟩, -⟩ := refill_inv tb now h
  have hc := refill_capacity tb now
  unfold TryConsume
  dsimp only
  split
  · exact ⟨by dsimp only; omega, by dsimp only; omega⟩
  · exact ⟨g0, g1⟩

lemma getTokens_inv (tb : TokenBucket) (now : Nat) (h : BucketInv tb) :
    BucketInv (GetTokens tb now).2 ∧
    0 ≤ (GetTokens tb now).1 ∧ (GetTokens tb now).1 ≤ tb.capacity := by
  obtain ⟨⟨g0, g1⟩, g2⟩ := refill_inv tb now h
  exact ⟨⟨g0, g1⟩, g0, g2⟩

lemma allowScript_inv (b : Option RedisBucketData) (capacity refillRate n now : Int)
    (hn : 0 ≤ n) (hr : 0 ≤ refillRate) (hc : 0 ≤ capacity)
    (hb : ∀ bd, b = some bd → 0 ≤ bd.tokens ∧ bd.tokens ≤ capacity ∧ bd.lastRefill ≤ now) :
    0 ≤ (allowScript b capacity refillRate n now).2.tokens ∧
    (allowScript b capacity refillRate n now).2.tokens ≤ capacity := by
  unfold allowScript
  match b with
  | none =>
    dsimp only
    have hz : (now - now) * refillRate = 0 := by ring
    rw [hz]
    split
    · split <;> (dsimp only; omega)
    · split <;> (dsimp only; omega)
  | some bd =>
    obtain ⟨k0, k1, k2⟩ := hb bd rfl
    dsimp only
    have hnn : 0 ≤ (now - bd.lastRefill) * refillRate :=
      mul_nonneg (by omega) hr
    split
    · split <;> (dsimp only; omega)
    · split <;> (dsimp only; omega)

/-- C1: for every bucket and after every operation (creation, refill,
TryConsume, GetTokens, and the distributed allow script) the balance
satisfies `0 ≤ tokens ≤ capacity`, and refill saturates: it never raises
the balance above capacity.  The script preserves the bounds for any
stored state within bounds, assuming a non-negative request, a
non-negative refill rate and forward-moving clocks. -/
theorem C1_balance_invariant :
    (∀ c r now, 0 ≤ c → BucketInv (NewTokenBucket c r now)) ∧
    (∀ tb now, BucketInv tb →
      BucketInv (refill tb now) ∧ (refill tb now).tokens ≤ tb.capacity) ∧
    (∀ tb n now, BucketInv tb → 0 ≤ n → BucketInv (TryConsume tb n now).2) ∧
    (∀ tb now, BucketInv tb → BucketInv (GetTokens tb now).2 ∧
      0 ≤ (GetTokens tb now).1 ∧ (GetTokens tb now).1 ≤ tb.capacity) ∧
    (∀ b capacity refillRate n now, 0 ≤ n → 0 ≤ refillRate → 0 ≤ capacity →
      (∀ bd, b = some bd → 0 ≤ bd.tokens ∧ bd.tokens ≤ capacity ∧ bd.lastRefill ≤ now) →
      0 ≤ (allowScript b capacity refillRate n now).2.tokens ∧
      (allowScript b capacity refillRate n now).2.tokens ≤ capacity) := by
  refine ⟨?_, ?_, ?_, ?_, ?_⟩
  · intro c r now hc
    exact ⟨hc, le_refl c⟩
  · exact fun tb now h => refill_inv tb now h
  · exact fun tb n now h hn => tryConsume_inv tb n now h hn
  · exact fun tb now h => getTokens_inv tb now h
  · exact fun b c r n now hn hr hc hb => allowScript_inv b c r n now hn hr hc hb

/-- Witness for C1 at concrete inputs. -/
theorem C1_balance_invariant_witness :
    BucketInv (NewTokenBucket 5 1 0) ∧
    BucketInv (refill { capacity := 5, tokens := 2, refillRate := 1, lastRefill := 0 } 4000) ∧
    BucketInv (TryConsume { capacity := 5, tokens := 2, refillRate := 1, lastRefill := 0 } 1 0).2 ∧
    0 ≤ (allowScript (some { tokens := 2, lastRefill := 10 }) 5 1 1 12).2.tokens :=
  ⟨C1_balance_invariant.1 5 1 0 (by decide),
   (C1_balance_invariant.2.1 { capacity := 5, tokens := 2, refillRate := 1, lastRefill := 0 } 4000 (by decide)).1,
   C1_balance_invariant.2.2.1 { capacity := 5, tokens := 2, refillRate := 1, lastRefill := 0 } 1 0 (by decide) (by decide),
   (C1_balance_invariant.2.2.2.2 (some { tokens := 2, lastRefill := 10 }) 5 1 1 12 (by decide) (by decide)
     (by decide) (by intro bd h; cases h; exact ⟨by decide, by decide, by decide⟩)).1⟩

/-- C2: `TryConsume` first refills from elapsed time, then succeeds exactly
when the refilled balance covers the request, subtracting it; on failure
only the refill is materialised and the consume step leaves the state
unchanged.  A fresh bucket with capacity 5 and refill rate 1/s, with no
time elapsing, allows exactly 5 consecutive `TryConsume 1` calls and the
6th returns false with a remaining balance of 0. -/
theorem C2_tryConsume_semantics :
    (∀ tb n now,
      ((TryConsume tb n now).1 = true ↔ n ≤ (refill tb now).tokens) ∧
      ((TryConsume tb n now).1 = true →
        (TryConsume tb n now).2 =
          { refill tb now with tokens := (refill tb now).tokens - n }) ∧
      ((TryConsume tb n now).1 = false → (TryConsume tb n now).2 = refill tb now)) ∧
    consumeCount (NewTokenBucket 5 1 0) 5 0 =
      (5, { capacity := 5, tokens := 0, refillRate := 1, lastRefill := 0 }) ∧
    TryConsume { capacity := 5, tokens := 0, refillRate := 1, lastRefill := 0 } 1 0 =
      (false, { capacity := 5, tokens := 0, refillRate := 1, lastRefill := 0 }) := by
  refine ⟨?_, by decide, by decide⟩
  intro tb n now
  refine ⟨?_, ?_, ?_⟩ <;> (unfold TryConsume; dsimp only; split <;> simp_all)

/-- Witness for C2 at a concrete input. -/
theorem C2_tryConsume_semantics_witness :
    (TryConsume { capacity := 5, tokens := (0 : Int), refillRate := 1, lastRefill := 0 } 1 0).2 =
      refill { capacity := 5, tokens := (0 : Int), refillRate := 1, lastRefill := 0 } 0 :=
  (C2_tryConsume_semantics.1
    { capacity := 5, tokens := (0 : Int), refillRate := 1, lastRefill := 0 } 1 0).2.2 (by decide)

/-- Modelled from the spec: the refill formula exactly as §4.1 states it,
`tokensToAdd = floor(elapsedSeconds * refillRate)`, at millisecond
precision.  Compare with `tokensToAdd`, which is what the code computes. -/
def specTokensToAdd (elapsedMs : Nat) (refillRate : Nat) : Nat :=
  elapsedMs * refillRate / 1000

/-- C3 counterexample: after 500 ms at refill rate 10/s the spec formula
grants `floor(0.5 * 10) = 5` tokens, but the code computes
`int(elapsed.Seconds()) * refillRate = 0 * 10 = 0`, so a drained bucket
still reports 0 tokens. -/
theorem C3_refill_formula_counterexample :
    tokensToAdd { capacity := 100, tokens := 0, refillRate := 10, lastRefill := 0 } 500 = 0 ∧
    specTokensToAdd 500 10 = 5 ∧
    (GetTokens { capacity := 100, tokens := 0, refillRate := 10, lastRefill := 0 } 500).1 = 0 := by
  decide

/-- C3 amended: on every refill the amount added is
`floor(elapsedSeconds) * refillRate` (the elapsed time is truncated to
whole seconds before multiplying, so sub-second remainders refill nothing
even at rates above 1/s); elapsed time is measured from `lastRefill`,
which advances only when tokens are actually added, so elapsed intervals
shorter than one second are never lost across calls; consequently a bucket
at 0 tokens with refill rate 1/s reports 3 tokens after 3 seconds with no
consumption, capped at capacity after 5 or more seconds. -/
theorem C3_refill_formula_amended :
    (∀ tb now, tokensToAdd tb now =
      (((now - tb.lastRefill) / 1000 : Nat) : Int) * tb.refillRate) ∧
    (∀ tb now, 0 < tokensToAdd tb now →
      (refill tb now).lastRefill = now ∧
      (refill tb now).tokens = min (tb.tokens + tokensToAdd tb now) tb.capacity) ∧
    (∀ tb now, tokensToAdd tb now ≤ 0 → refill tb now = tb) ∧
    (∀ tb t1 t2, tokensToAdd tb t1 ≤ 0 → refill (refill tb t1) t2 = refill tb t2) ∧
    (GetTokens { capacity := 5, tokens := 0, refillRate := 1, lastRefill := 0 } 3000).1 = 3 ∧
    (GetTokens { capacity := 5, tokens := 0, refillRate := 1, lastRefill := 0 } 7000).1 = 5 := by
  refine ⟨fun tb now => rfl, ?_, ?_, ?_, by decide, by decide⟩
  · intro tb now h
    unfold refill
    dsimp only
    rw [if_pos h]
    refine ⟨rfl, ?_⟩
    dsimp only
    split <;> omega
  · intro tb now h
    unfold refill
    dsimp only
    rw [if_neg (by omega)]
  · intro tb t1 t2 h
    have : refill tb t1 = tb := by
      unfold refill; dsimp only; rw [if_neg (by omega)]
    rw [this]

/-- Witness for C3 amended at concrete inputs. -/
theorem C3_refill_formula_amended_witness :
    (refill { capacity := 5, tokens := 1, refillRate := 1, lastRefill := 0 } 2000).lastRefill = 2000 ∧
    refill { capacity := 5, tokens := 1, refillRate := 1, lastRefill := 0 } 500 =
      { capacity := 5, tokens := 1, refillRate := 1, lastRefill := 0 } :=
  ⟨(C3_refill_formula_amended.2.1
      { capacity := 5, tokens := 1, refillRate := 1, lastRefill := 0 } 2000 (by decide)).1,
   C3_refill_formula_amended.2.2.1
      { capacity := 5, tokens := 1, refillRate := 1, lastRefill := 0 } 500 (by decide)⟩

lemma refill_now_self (tb : TokenBucket) : refill tb tb.lastRefill = tb := by
  unfold refill tokensToAdd
  simp

lemma tryConsume_now (cap t rate : Int) (now : Nat) :
    TryConsume { capacity := cap, tokens := t, refillRate := rate, lastRefill := now } 1 now =
      if t ≥ 1 then
        (true, { capacity := cap, tokens := t - 1, refillRate := rate, lastRefill := now })
      else
        (false, { capacity := cap, tokens := t, refillRate := rate, lastRefill := now }) := by
  unfold TryConsume
  rw [show refill { capacity := cap, tokens := t, refillRate := rate, lastRefill := now } now =
        { capacity := cap, tokens := t, refillRate := rate, lastRefill := now } from
      refill_now_self _]

lemma consumeCount_closed (N : Nat) : ∀ (cap rate t : Int) (now : Nat), 0 ≤ t →
    consumeCount { capacity := cap, tokens := t, refillRate := rate, lastRefill := now } N now =
      (min t.toNat N,
        { capacity := cap, tokens := t - (min t.toNat N : Nat), refillRate := rate, lastRefill := now }) := by
  induction N with
  | zero =>
    intro cap rate t now ht
    simp [consumeCount]
  | succ k ih =>
    intro cap rate t now ht
    unfold consumeCount
    dsimp only
    rw [tryConsume_now]
    by_cases h1 : t ≥ 1
    · rw [if_pos h1]
      dsimp only
      rw [ih cap rate (t - 1) now (by omega)]
      simp [Prod.mk.injEq, TokenBucket.mk.injEq]
      omega
    · rw [if_neg h1]
      dsimp only
      rw [ih cap rate t now ht]
      simp [Prod.mk.injEq, TokenBucket.mk.injEq]
      omega

lemma allowScript_now (t cap rate n now : Int) (hcap : t ≤ cap) :
    allowScript (some { tokens := t, lastRefill := now }) cap rate n now =
      if t ≥ n then
        (true, { tokens := t - n, lastRefill := now })
      else
        (false, { tokens := t, lastRefill := now }) := by
  unfold allowScript
  simp only [sub_self, zero_mul, add_zero]
  rw [if_neg (by omega : ¬ t > cap)]

lemma allowCount_closed (N : Nat) : ∀ (cap rate t now : Int), 0 ≤ t → t ≤ cap →
    allowCount { tokens := t, lastRefill := now } cap rate N now =
      (min t.toNat N,
        { tokens := t - (min t.toNat N : Nat), lastRefill := now }) := by
  induction N with
  | zero =>
    intro cap rate t now ht hc
    simp [allowCount]
  | succ k ih =>
    intro cap rate t now ht hc
    unfold allowCount
    dsimp only
    rw [allowScript_now t cap rate 1 now hc]
    by_cases h1 : t ≥ 1
    · rw [if_pos h1]
      dsimp only
      rw [ih cap rate (t - 1) now (by omega) (by omega)]
      simp [Prod.mk.injEq, RedisBucketData.mk.injEq]
      omega
    · rw [if_neg h1]
      dsimp only
      rw [ih cap rate t now ht hc]
      simp [Prod.mk.injEq, RedisBucketData.mk.injEq]
      omega

/-- C4: no double spend, serialisation view.  Each `TryConsume` holds the
bucket mutex for the whole refill-check-subtract block, and each
distributed allow runs as one atomic server-side script, so any thread
interleaving of `N` concurrent unit consumptions on one key is exactly
some back-to-back sequence of the atomic operations; for every such
sequence starting from a balance `T ≤ capacity`, with `T ≤ N`, exactly `T`
of the `N` calls succeed (hence `N - T` fail) and the final balance is 0,
for both the in-process bucket and the distributed script. -/
theorem C4_no_double_spend :
    (∀ (cap rate : Int) (T N : Nat) (now : Nat), (T : Int) ≤ cap → T ≤ N →
      (consumeCount { capacity := cap, tokens := (T : Int), refillRate := rate, lastRefill := now } N now).1 = T ∧
      (consumeCount { capacity := cap, tokens := (T : Int), refillRate := rate, lastRefill := now } N now).2.tokens = 0) ∧
    (∀ (cap rate : Int) (T N : Nat) (now : Int), (T : Int) ≤ cap → T ≤ N →
      (allowCount { tokens := (T : Int), lastRefill := now } cap rate N now).1 = T ∧
      (allowCount { tokens := (T : Int), lastRefill := now } cap rate N now).2.tokens = 0) := by
  constructor
  · intro cap rate T N now hcap hN
    rw [consumeCount_closed N cap rate (T : Int) now (by positivity)]
    constructor
    · simp; omega
    · simp; omega
  · intro cap rate T N now hcap hN
    rw [allowCount_closed N cap rate (T : Int) now (by positivity) hcap]
    constructor
    · simp; omega
    · simp; omega

/-- Witness for C4 at concrete inputs. -/
theorem C4_no_double_spend_witness :
    (consumeCount { capacity := 5, tokens := (3 : Int), refillRate := 1, lastRefill := 0 } 7 0).1 = 3 ∧
    (allowCount { tokens := (3 : Int), lastRefill := 9 } 5 1 7 9).1 = 3 :=
  ⟨(C4_no_double_spend.1 5 1 3 7 0 (by decide) (by decide)).1,
   (C4_no_double_spend.2 5 1 3 7 9 (by decide) (by decide)).1⟩

/-- C5: whenever the limiter evaluation returns an error, the middleware
fails open: the request is forwarded to the downstream handler with no
rate-limit headers, no denial status and no denial body. -/
theorem C5_fail_open :
    ∀ (capacity : Int) (downstreamStatus : Nat),
      Middleware capacity (.error ()) downstreamStatus =
        { headerLimit := none, headerRemaining := none, headerReset := none
          headerRetryAfter := none, status := downstreamStatus
          body := none, downstreamCalled := true } :=
  fun _ _ => rfl

/-- C6 counterexample: for capacity 100, refill rate 10/s and a bucket at
0 tokens, the denial carries `Retry-After: 0` — present, but not strictly
greater than 0, because `time.Duration(0.1)` truncates the float quotient
`1/10` to zero seconds. -/
theorem C6_retry_after_counterexample :
    ((MiddlewareLocal { skipSuccessful := false, skipFailed := false }
        { capacity := 100, tokens := 0, refillRate := 10, lastRefill := 0 } 0 200).1).headerRetryAfter
      = some 0 ∧
    ((MiddlewareLocal { skipSuccessful := false, skipFailed := false }
        { capacity := 100, tokens := 0, refillRate := 10, lastRefill := 0 } 0 200).1).status = 429 ∧
    ((MiddlewareLocal { skipSuccessful := false, skipFailed := false }
        { capacity := 100, tokens := 0, refillRate := 10, lastRefill := 0 } 0 200).1).headerRemaining
      = some 0 := by
  decide

/-- C6 amended: on every successful evaluation the middleware sets the
X-RateLimit-Limit, X-RateLimit-Remaining and X-RateLimit-Reset headers; on
denial it additionally sets Retry-After, answers 429 with the structured
body (error, message, retry_after, reset_time, limit, remaining) and never
invokes the downstream handler; for capacity 100, remaining 0 and refill
rate 10/s the Retry-After header is present with value
`floor((1 - 0) / 10) = 0` seconds (not strictly positive). -/
theorem C6_response_shaping_amended :
    (∀ (capacity : Int) (result : RateLimitResult) (ds : Nat),
      (Middleware capacity (.ok result) ds).headerLimit = some capacity ∧
      (Middleware capacity (.ok result) ds).headerRemaining = some result.remaining ∧
      (Middleware capacity (.ok result) ds).headerReset = some result.resetTime ∧
      (result.allowed = false →
        (Middleware capacity (.ok result) ds).headerRetryAfter = some result.retryAfterSec ∧
        (Middleware capacity (.ok result) ds).status = 429 ∧
        (Middleware capacity (.ok result) ds).body = some
          { error := "Rate limit exceeded", message := "Too many requests"
            retryAfter := result.retryAfterSec, resetTime := result.resetTime
            limit := capacity, remaining := result.remaining } ∧
        (Middleware capacity (.ok result) ds).downstreamCalled = false) ∧
      (result.allowed = true →
        (Middleware capacity (.ok result) ds).downstreamCalled = true ∧
        (Middleware capacity (.ok result) ds).status = ds ∧
        (Middleware capacity (.ok result) ds).headerRetryAfter = none)) ∧
    ((MiddlewareLocal { skipSuccessful := false, skipFailed := false }
        { capacity := 100, tokens := 0, refillRate := 10, lastRefill := 0 } 0 200).1).headerRetryAfter
      = some 0 := by
  refine ⟨?_, by decide⟩
  intro capacity result ds
  cases h : result.allowed <;> simp [Middleware, h]

/-- Witness for C6 amended at a concrete denied result. -/
theorem C6_response_shaping_amended_witness :
    (Middleware 100 (.ok { allowed := false, remaining := 0, resetTime := 7, retryAfterSec := 0 }) 200).status = 429 :=
  ((C6_response_shaping_amended.1 100
      { allowed := false, remaining := 0, resetTime := 7, retryAfterSec := 0 } 200).2.2.2.1
    rfl).2.1

/-- C9: the skip flags are dead.  `shouldCountRequest` classifies the
downstream status as not-to-be-counted, but the middleware discards its
result after `CheckRateLimit` has already consumed the token, so a fresh
capacity-100 bucket drops to 99 tokens even when `SkipSuccessful` is set
and the downstream status is 200 (and likewise for `SkipFailed` and a 404),
exactly as it does with both flags unset. -/
theorem C9_skip_flags_have_no_effect :
    shouldCountRequest { skipSuccessful := true, skipFailed := false } 200 = false ∧
    (NewTokenBucket 100 10 0).tokens = 100 ∧
    (MiddlewareLocal { skipSuccessful := true, skipFailed := false }
      (NewTokenBucket 100 10 0) 0 200).2.tokens = 99 ∧
    shouldCountRequest { skipSuccessful := false, skipFailed := true } 404 = false ∧
    (MiddlewareLocal { skipSuccessful := false, skipFailed := true }
      (NewTokenBucket 100 10 0) 0 404).2.tokens = 99 ∧
    (MiddlewareLocal { skipSuccessful := false, skipFailed := false }
      (NewTokenBucket 100 10 0) 0 200).2.tokens = 99 := by
  decide

lemma sentinel_ne_empty (s : String) : ("unknown:" ++ s) ≠ "" := by
  intro h
  have hl := congrArg String.length h
  simp [String.length_append] at hl
  exact absurd hl.1 (by decide)

/-- C7: client key derivation is a pure function of the request and never
yields the empty string; a configured custom key function takes precedence
when it returns non-empty; in source-IP mode the key comes from the first
X-Forwarded-For entry (trimmed) when that header is present, else from
X-Real-IP, else from the host part of the transport peer address; and when
the selected mode yields an empty key the result is the sentinel
`unknown:` plus the source IP. -/
theorem C7_client_key_derivation :
    (∀ cfg r, generateClientKey cfg r ≠ "") ∧
    (∀ cfg r f, cfg.customKeyFunc = some f → f r ≠ "" →
      generateClientKey cfg r = f r) ∧
    (∀ c r, modeKey { identifier := .byIP, customKeyFunc := c } r = getClientIP r) ∧
    (∀ r, r.xForwardedFor ≠ "" →
      getClientIP r = ((r.xForwardedFor.splitOn ",").headD "").trim) ∧
    (∀ r, r.xForwardedFor = "" → r.xRealIP ≠ "" → getClientIP r = r.xRealIP) ∧
    (∀ r h, r.xForwardedFor = "" → r.xRealIP = "" →
      splitHostPort r.remoteAddr = some h → getClientIP r = h) ∧
    (∀ cfg r, cfg.customKeyFunc = none → modeKey cfg r = "" →
      generateClientKey cfg r = "unknown:" ++ getClientIP r) ∧
    (∀ cfg r, cfg.customKeyFunc = none → modeKey cfg r ≠ "" →
      generateClientKey cfg r = modeKey cfg r) := by
  refine ⟨?_, ?_, ?_, ?_, ?_, ?_, ?_, ?_⟩
  · intro cfg r
    unfold generateClientKey
    cases hc : cfg.customKeyFunc with
    | none =>
      by_cases hk : modeKey cfg r = "" <;> simp [hk]
      exact sentinel_ne_empty _
    | some f =>
      by_cases hf : f r = ""
      · by_cases hk : modeKey cfg r = "" <;> simp [hf, hk]
        exact sentinel_ne_empty _
      · simp [hf]
  · intro cfg r f hc hf
    unfold generateClientKey
    rw [hc]
    simp [hf]
  · intro c r
    rfl
  · intro r h
    unfold getClientIP
    rw [if_pos h]
  · intro r h1 h2
    unfold getClientIP
    rw [if_neg (by simp [h1]), if_pos h2]
  · intro r h h1 h2 h3
    unfold getClientIP
    rw [if_neg (by simp [h1]), if_neg (by simp [h2]), h3]
  · intro cfg r hc hk
    unfold generateClientKey
    rw [hc]
    simp [hk]
  · intro cfg r hc hk
    unfold generateClientKey
    rw [hc]
    simp [hk]

/-- Witness for C7 at concrete requests. -/
theorem C7_client_key_derivation_witness :
    generateClientKey
      { identifier := .byIP, customKeyFunc := some (fun _ => "tenant-42") }
      { xForwardedFor := "", xRealIP := "", remoteAddr := ""
        authorization := "", xAPIKey := "" } = "tenant-42" ∧
    getClientIP
      { xForwardedFor := "10.0.0.7, 192.168.0.1", xRealIP := "", remoteAddr := "1.2.3.4:80"
        authorization := "", xAPIKey := "" }
      = (("10.0.0.7, 192.168.0.1".splitOn ",").headD "").trim ∧
    generateClientKey { identifier := .byIP, customKeyFunc := none }
      { xForwardedFor := "", xRealIP := "", remoteAddr := ""
        authorization := "", xAPIKey := "" }
      = "unknown:" ++ getClientIP
          { xForwardedFor := "", xRealIP := "", remoteAddr := ""
            authorization := "", xAPIKey := "" } :=
  ⟨C7_client_key_derivation.2.1
      { identifier := .byIP, customKeyFunc := some (fun _ => "tenant-42") }
      { xForwardedFor := "", xRealIP := "", remoteAddr := ""
        authorization := "", xAPIKey := "" }
      (fun _ => "tenant-42") rfl (by decide),
   C7_client_key_derivation.2.2.2.1
      { xForwardedFor := "10.0.0.7, 192.168.0.1", xRealIP := "", remoteAddr := "1.2.3.4:80"
        authorization := "", xAPIKey := "" } (by decide),
   C7_client_key_derivation.2.2.2.2.2.2.1
      { identifier := .byIP, customKeyFunc := none }
      { xForwardedFor := "", xRealIP := "", remoteAddr := ""
        authorization := "", xAPIKey := "" } rfl (by decide)⟩

/-- C8: `GetStatus` on a key with no backend state reports a bucket at full
capacity; `Reset` deletes the key, after which both `GetStatus` and the
next `Allow` behave exactly as for a key that never recorded traffic, and
the allow script initialises a missing key as a fresh full bucket. -/
theorem C8_status_reset_fresh :
    (∀ store capacity refillRate key now, store key = none →
      RedisGetStatus store capacity refillRate key now = (capacity, capacity, refillRate)) ∧
    (∀ (store : String → Option RedisBucketData) key, RedisReset store key key = none) ∧
    (∀ store capacity refillRate key now,
      RedisGetStatus (RedisReset store key) capacity refillRate key now =
        RedisGetStatus emptyStore capacity refillRate key now) ∧
    (∀ store capacity refillRate n now key,
      (RedisAllow (RedisReset store key) capacity refillRate n now key).1 =
        (RedisAllow emptyStore capacity refillRate n now key).1 ∧
      (RedisAllow (RedisReset store key) capacity refillRate n now key).2 key =
        (RedisAllow emptyStore capacity refillRate n now key).2 key) ∧
    (∀ capacity refillRate n now,
      allowScript none capacity refillRate n now =
        allowScript (some { tokens := capacity, lastRefill := now }) capacity refillRate n now) := by
  refine ⟨?_, ?_, ?_, ?_, ?_⟩
  · intro store capacity refillRate key now h
    simp [RedisGetStatus, h]
  · intro store key
    simp [RedisReset]
  · intro store capacity refillRate key now
    simp [RedisGetStatus, RedisReset, emptyStore]
  · intro store capacity refillRate n now key
    constructor <;> simp [RedisAllow, RedisReset, emptyStore]
  · intro capacity refillRate n now
    rfl

/-- Witness for C8 at a concrete store and key. -/
theorem C8_status_reset_fresh_witness :
    RedisGetStatus emptyStore 100 10 "client-a" 50 = (100, 100, 10) :=
  C8_status_reset_fresh.1 emptyStore 100 10 "client-a" 50 rfl

/-- C10: the management test and per-client status endpoints never consult
or mutate the limiter state: for every key the test endpoint reports the
hard-coded allowed/99/100 payload and the status endpoint the hard-coded
95/100 payload, identically for any two limiter states, and the only
non-payload outcome is a structured 400 client error for a missing or
undecodable input. -/
theorem C10_management_endpoints_hardcoded :
    ∀ (σ : Type) (s sp : σ) (body : Option RateLimitTestRequest) (key : String),
      (TestRateLimit σ s body).2 = s ∧
      (TestRateLimit σ s body).1 = (TestRateLimit σ sp body).1 ∧
      (GetClientStatus σ s key).2 = s ∧
      (GetClientStatus σ s key).1 = (GetClientStatus σ sp key).1 ∧
      (∀ req, body = some req → req.key ≠ "" →
        (TestRateLimit σ s body).1 = .ok
          { allowed := true, remaining := 99, resetTime := "2025-09-19T16:30:00Z"
            retryAfter := 0, limit := 100 }) ∧
      (key ≠ "" →
        (GetClientStatus σ s key).1 = .ok
          { allowed := true, remaining := 95, resetTime := "2025-09-19T16:30:00Z"
            retryAfter := 0, limit := 100 }) ∧
      (∀ st msg, (TestRateLimit σ s body).1 = .clientError st msg →
        st = 400 ∧ (body = none ∨ ∃ req, body = some req ∧ req.key = "")) ∧
      (∀ st msg, (GetClientStatus σ s key).1 = .clientError st msg →
        st = 400 ∧ key = "") := by
  intro σ s sp body key
  refine ⟨?_, ?_, ?_, ?_, ?_, ?_, ?_, ?_⟩
  · cases body with
    | none => rfl
    | some req => by_cases h : req.key = "" <;> simp [TestRateLimit, h]
  · cases body with
    | none => rfl
    | some req => by_cases h : req.key = "" <;> simp [TestRateLimit, h]
  · by_cases h : key = "" <;> simp [GetClientStatus, h]
  · by_cases h : key = "" <;> simp [GetClientStatus, h]
  · intro req hb hk
    subst hb
    simp [TestRateLimit, hk]
  · intro hk
    simp [GetClientStatus, hk]
  · intro st msg h
    cases body with
    | none =>
      simp [TestRateLimit] at h
      exact ⟨h.1.symm, Or.inl rfl⟩
    | some req =>
      by_cases hk : req.key = ""
      · simp [TestRateLimit, hk] at h
        exact ⟨h.1.symm, Or.inr ⟨req, rfl, hk⟩⟩
      · simp [TestRateLimit, hk] at h
  · intro st msg h
    by_cases hk : key = ""
    · simp [GetClientStatus, hk] at h
      exact ⟨h.1.symm, hk⟩
    · simp [GetClientStatus, hk] at h

/-- Witness for C10 at concrete inputs. -/
theorem C10_management_endpoints_hardcoded_witness :
    (TestRateLimit Nat 0 (some { key := "192.168.1.1", count := 1 })).1 = .ok
      { allowed := true, remaining := 99, resetTime := "2025-09-19T16:30:00Z"
        retryAfter := 0, limit := 100 } ∧
    (GetClientStatus Nat 0 "192.168.1.1").1 = .ok
      { allowed := true, remaining := 95, resetTime := "2025-09-19T16:30:00Z"
        retryAfter := 0, limit := 100 } :=
  ⟨(C10_management_endpoints_hardcoded Nat 0 1 (some { key := "192.168.1.1", count := 1 })
      "192.168.1.1").2.2.2.2.1 { key := "192.168.1.1", count := 1 } rfl (by decide),
   (C10_management_endpoints_hardcoded Nat 0 1 (some { key := "192.168.1.1", count := 1 })
      "192.168.1.1").2.2.2.2.2.1 (by decide)⟩
